import Mathlib

/-!
# Google search provider

A shallow embedding of `google-search-provider.js` and of `enable()` in
`extension.js`, followed by the properties of the search session engine.

Conventions of the embedding

* A JavaScript string is a Lean `String` (a sequence of Unicode scalar values);
  a value that may be `undefined` is an `Option`.
* `this` is passed explicitly as `self`; a method that assigns to fields of
  `this` returns the new provider.
* A JavaScript number that counts results (`maxResults`) is an `Int`, negative
  values included.
* A promise is its settlement state (`Promise`); `resolve` and `reject` only act
  on a pending promise, as in JavaScript.
* The world outside the provider is passed in: the cancellation token
  (`Cancellable`), whether `Soup.Message.new` yields a message (`messageNew`),
  what the completion handler observes of the HTTP exchange (`Reply`) and the
  draws of `Math.floor(Math.random() * charlen)` (`random`).
* The shell side effects (`Main.overview.toggle`, the `St` widgets, `log`) do not
  touch the provider and are left out; a method that opens a URI returns it.
-/

namespace GoogleSearch

/-! ## JavaScript and GLib built-ins -/

/-- Settlement state of a JavaScript promise. -/
inductive Promise (α : Type) where
  | pending
  | fulfilled (value : α)
  | rejected (error : String)
deriving DecidableEq, Repr

/-- The `resolve` function handed to a promise executor: settles a pending promise. -/
def Promise.resolve {α : Type} : Promise α → α → Promise α
  | .pending, v => .fulfilled v
  | .fulfilled w, _ => .fulfilled w
  | .rejected e, _ => .rejected e

/-- The `reject` function handed to a promise executor: settles a pending promise. -/
def Promise.reject {α : Type} : Promise α → String → Promise α
  | .pending, e => .rejected e
  | .fulfilled w, _ => .fulfilled w
  | .rejected e', _ => .rejected e'

/-- The `Gio.Cancellable` of one call, reduced to the two moments at which the
provider can observe it: `atCall` says the token is already cancelled when the
method is invoked, `inFlight` says it gets cancelled while the HTTP request is
pending. -/
structure Cancellable where
  atCall : Bool
  inFlight : Bool
deriving DecidableEq, Repr

/-- The value of `cancellable.is_cancelled()` as seen by the completion handler. -/
def Cancellable.is_cancelled (c : Cancellable) : Bool := c.atCall || c.inFlight

/-- The call `cancellable.connect(handler)` with `handler = () => reject(Error(msg))`, run
by the executor on the fresh promise: `g_cancellable_connect` invokes the handler
at once when the token is already cancelled. -/
def connect (alreadyCancelled : Bool) (msg : String) {α : Type} (p : Promise α) : Promise α :=
  if alreadyCancelled then p.reject msg else p

/-- The test of `String.prototype.includes` on the characters of the two strings. -/
def includesChars (sub : List Char) : List Char → Bool
  | [] => sub.isPrefixOf []
  | c :: cs => sub.isPrefixOf (c :: cs) || includesChars sub cs

/-- The call `s.includes(sub)`. -/
def includes (s sub : String) : Bool := includesChars sub.data s.data

/-- The method `Array.prototype.join(sep)` on an array of strings. -/
def join (parts : List String) (sep : String) : String :=
  String.mk (List.intercalate sep.data (parts.map String.data))

/-- The method `String.prototype.charAt(i)`: the empty string when `i` is out of range. -/
def charAt (s : String) (i : Nat) : String :=
  match s.data.get? i with
  | some c => String.singleton c
  | none => ""

/-! ### `encodeURIComponent` -/

/-- Upper-case hexadecimal digit of a value below 16. -/
def hexDigit (n : Nat) : Char := "0123456789ABCDEF".data.getD n '0'

/-- UTF-8 octets of a code point. -/
def utf8Bytes (c : Nat) : List Nat :=
  if c < 0x80 then [c]
  else if c < 0x800 then [0xC0 + c / 64, 0x80 + c % 64]
  else if c < 0x10000 then [0xE0 + c / 4096, 0x80 + c / 64 % 64, 0x80 + c % 64]
  else [0xF0 + c / 262144, 0x80 + c / 4096 % 64, 0x80 + c / 64 % 64, 0x80 + c % 64]

/-- The characters `encodeURIComponent` leaves alone: ASCII letters, digits and
`- _ . ! ~ * ' ( )`. -/
def uriUnescaped (c : Char) : Bool :=
  c.isAlphanum || decide (c.toNat ∈ [45, 95, 46, 33, 126, 42, 39, 40, 41])

/-- One octet as `%XX`. -/
def percentOctet (b : Nat) : List Char := ['%', hexDigit (b / 16), hexDigit (b % 16)]

/-- Encoding of one character. -/
def encodeChar (c : Char) : List Char :=
  if uriUnescaped c then [c] else ((utf8Bytes c.toNat).map percentOctet).flatten

/-- The function `encodeURIComponent(s)` for a well-formed string `s`. -/
def encodeURIComponent (s : String) : String := String.mk ((s.data.map encodeChar).flatten)

/-! ## Data model -/

/-- One element of the `items` array of the Custom Search JSON response, with the
properties the provider reads: `title`, `link` and `pagemap.cse_thumbnail[0].src`;
a property the response omits is `none`. -/
structure Item where
  title : Option String
  link : Option String
  thumbnail : Option String
deriving DecidableEq, Repr

/-- A JavaScript `Map` from result ids to items, in insertion order. -/
abbrev ItemMap := List (String × Item)

/-- The method `Map.prototype.get`. -/
def ItemMap.get : ItemMap → String → Option Item
  | [], _ => none
  | (k, v) :: rest, key => if k = key then some v else ItemMap.get rest key

/-- The method `Map.prototype.set`: replaces the value of a key already present, keeping its
position, and appends a new key otherwise. -/
def ItemMap.set : ItemMap → String → Item → ItemMap
  | [], key, value => [(key, value)]
  | (k, v) :: rest, key, value =>
    if k = key then (k, value) :: rest else (k, v) :: ItemMap.set rest key value

/-- The property `Map.prototype.size`. -/
def ItemMap.size (m : ItemMap) : Nat := m.length

/-- The fields of a `GoogleSearchProvider` instance that the search methods use
(`_extension` and `_gicon` only serve the shell). `_items` is `this._items`, which
the response handler assigns; it is `none` while undefined. -/
structure GoogleSearchProvider where
  _key : String
  _cx : String
  _itemMap : ItemMap
  _too_many_requests : Bool
  _items : Option (List Item)
deriving DecidableEq, Repr

/-- The constructor of `GoogleSearchProvider`. -/
def GoogleSearchProvider.constructor (key cx : String) : GoogleSearchProvider :=
  { _key := key, _cx := cx, _itemMap := [], _too_many_requests := false, _items := none }

/-- The id and display text of the rate-limit pseudo-result. -/
def tooManyRequests : String := "Too many requests."

/-! ## `filterResults` -/

/-- The call `xs.slice(0, finish)` of `Array.prototype.slice` for an integer
`finish`: a negative `finish` counts from the end of the array, and the end
position is clamped to the range from 0 to the length. -/
def slice {α : Type} (xs : List α) (finish : Int) : List α :=
  xs.take (if finish < 0 then ((xs.length : Int) + finish).toNat else min finish.toNat xs.length)

/-- The method `filterResults(results, maxResults)`. The number `maxResults` is an
integer of either sign: the source does not test it. -/
def filterResults (results : List String) (maxResults : Int) : List String :=
  if (results.length : Int) ≤ maxResults then results else slice results maxResults

/-! ## `createUID` -/

/-- The alphabet of `createUID`. -/
def chars : String := "ABCDEFGHIJKLMNOPQRSTUVWXYZabcdefghijklmnopqrstuvwxyz0123456789"

/-- The method `createUID()`: 32 symbols of `chars`, the `i`-th chosen by the
`i`-th draw `random i` of `Math.floor(Math.random() * charlen)`. -/
def createUID (random : Nat → Fin 62) : String :=
  join ((List.range 32).map fun i => charAt chars (random i).val) ""

/-! ## `launchSearch` and `activateResult` -/

/-- The expression `terms.map(encodeURIComponent).join("+")`, which both
`launchSearch` and `getInitialResultSet` bind to `query`. -/
def query (terms : List String) : String := join (terms.map encodeURIComponent) "+"

/-- The method `launchSearch(terms)`; the result is the URI handed to
`Gio.AppInfo.launch_default_for_uri_async`. -/
def launchSearch (terms : List String) : String :=
  "https://www.google.com/search?q=" ++ query terms

/-- The method `activateResult(result, terms)`; the result is the URI handed to
`Gio.AppInfo.launch_default_for_uri_async` (the `link` of the stored item, which
may be undefined), or the `TypeError` of reading `link` off an absent item. -/
def activateResult (self : GoogleSearchProvider) (result : String) : Except String (Option String) :=
  match self._itemMap.get result with
  | some item => .ok item.link
  | none => .error "TypeError"

/-! ## `getResultMetas` -/

/-- A `ResultMeta` object without its `createIcon` closure. -/
structure ResultMeta where
  id : Option String
  name : Option String
deriving DecidableEq, Repr

/-- The `for` loop of `getResultMetas`; `none` when `item.title` throws because
the id is not a key of `_itemMap`. -/
def resultMetasLoop (itemMap : ItemMap) : List String → Option (List ResultMeta)
  | [] => some []
  | resultId :: rest =>
    match itemMap.get resultId with
    | none => none
    | some item =>
      match resultMetasLoop itemMap rest with
      | none => none
      | some metas => some ({ id := some resultId, name := item.title } :: metas)

/-- The `.catch((error) => { reject(error); })` chained to the promise of
`getResultMetas`: `reject` is not in scope there, so the handler itself throws. -/
def catchReject {α : Type} : Promise α → Promise α
  | .pending => .pending
  | .fulfilled v => .fulfilled v
  | .rejected _ => .rejected "ReferenceError: reject is not defined"

/-- The method `getResultMetas(results, cancellable)`. The body is synchronous,
so the token is observed in one state, `cancelled`. -/
def getResultMetas (self : GoogleSearchProvider) (results : List String) (cancelled : Bool) :
    Promise (List ResultMeta) :=
  let promise := connect cancelled "Operation Cancelled" (Promise.pending : Promise (List ResultMeta))
  catchReject <|
    if self._too_many_requests then
      let resultMetas := [{ id := results.head?, name := results.head? }]
      if !cancelled then promise.resolve resultMetas else promise
    else
      match resultMetasLoop self._itemMap results with
      | none => promise.reject "TypeError"
      | some resultMetas => if !cancelled then promise.resolve resultMetas else promise

/-! ## `getInitialResultSet` -/

/-- What `message.get_status()` does in the completion handler: it returns the
status code, or throws an error with the given message (the handler's comment:
a 429 causes a bad Soup enum error). -/
inductive Status where
  | ok (code : Nat)
  | throws (message : String)
deriving DecidableEq, Repr

/-- What `JSON.parse` makes of the response body: a `SyntaxError`, or a value
whose `items` property is an array of items or is not iterable (`none`). -/
inductive Body where
  | syntaxError
  | parsed (items : Option (List Item))
deriving DecidableEq, Repr

/-- What the completion handler observes of the HTTP exchange: whether
`session.send_and_read_finish` throws (a transport failure), the outcome of
`message.get_status()` and the parsed body. -/
structure Reply where
  finishThrows : Bool
  status : Status
  body : Body
deriving DecidableEq, Repr

/-- The URL of the Custom Search request. -/
def requestUrl (self : GoogleSearchProvider) (terms : List String) : String :=
  "https://customsearch.googleapis.com/customsearch/v1?cx=" ++ self._cx ++ "&key=" ++ self._key
    ++ "&q=" ++ query terms

/-- What the executor of `getInitialResultSet` has done when the method returns:
the state of the promise and the URL of the GET request handed to
`session.send_and_read_async`, if one was issued. -/
structure Started where
  promise : Promise (List String)
  request : Option String
deriving DecidableEq, Repr

/-- The synchronous part of `getInitialResultSet(terms, cancellable)`: the promise
executor up to and including `send_and_read_async`. `messageNew url` says
whether `Soup.Message.new("GET", url)` yields a message. -/
def getInitialResultSet.executor (messageNew : String → Bool) (self : GoogleSearchProvider)
    (terms : List String) (cancelled : Bool) : Started :=
  let promise := connect cancelled "Search Cancelled." (Promise.pending : Promise (List String))
  if self._too_many_requests then
    { promise := promise.resolve [tooManyRequests], request := none }
  else
    let url := requestUrl self terms
    if messageNew url then { promise := promise, request := some url }
    else { promise := promise, request := none }

/-- The loop `for (let item of this._items)` of the completion handler: every
item gets a fresh id, which is pushed on `ids` and under which the item is set
in `_itemMap`. Each `createUID()` consumes 32 draws. -/
def storeItems (random : Nat → Fin 62) : List Item → List String → ItemMap → List String × ItemMap
  | [], ids, itemMap => (ids, itemMap)
  | item :: rest, ids, itemMap =>
    let id := createUID random
    storeItems (fun i => random (i + 32)) rest (ids ++ [id]) (itemMap.set id item)

/-- The provider and the promise after the completion handler has run. -/
structure Handled where
  provider : GoogleSearchProvider
  promise : Promise (List String)
deriving DecidableEq, Repr

/-- The completion handler passed to `send_and_read_async`, run on the provider
`self` and the promise as they are when the reply arrives; `cancelled` is
`cancellable.is_cancelled()` at that moment. Every exception ends in the outer
`catch`, which only logs. -/
def getInitialResultSet.callback (self : GoogleSearchProvider) (promise : Promise (List String))
    (cancelled : Bool) (reply : Reply) (random : Nat → Fin 62) : Handled :=
  if reply.finishThrows then { provider := self, promise := promise }
  else
    match reply.status with
    | .throws message =>
      if includes message "429" then
        { provider := { self with _too_many_requests := true },
          promise := promise.resolve [tooManyRequests] }
      else { provider := self, promise := promise }
    | .ok status =>
      if status = 200 then
        match reply.body with
        | .syntaxError => { provider := self, promise := promise }
        | .parsed none => { provider := { self with _items := none }, promise := promise }
        | .parsed (some items) =>
          let stored := storeItems random items [] self._itemMap
          { provider := { self with _items := some items, _itemMap := stored.2 },
            promise := if !cancelled then promise.resolve stored.1 else promise }
      else { provider := self, promise := promise }

/-- One whole `getInitialResultSet` call: the provider afterwards, the final
state of the returned promise and the request issued. -/
structure SearchOutcome where
  provider : GoogleSearchProvider
  promise : Promise (List String)
  request : Option String
deriving DecidableEq, Repr

/-- The method `getInitialResultSet(terms, cancellable)` from the call to the end
of its completion handler, with no other provider method running in between.
The cancel handler connected by the executor is never disconnected (the
`disconnect` after the `return` is not reached), so a cancellation while the
request is in flight rejects the promise before the reply is handled. -/
def getInitialResultSet (messageNew : String → Bool) (self : GoogleSearchProvider)
    (terms : List String) (cancellable : Cancellable) (reply : Reply) (random : Nat → Fin 62) :
    SearchOutcome :=
  let started := getInitialResultSet.executor messageNew self terms cancellable.atCall
  match started.request with
  | none => { provider := self, promise := started.promise, request := none }
  | some url =>
    let promise := connect cancellable.inFlight "Search Cancelled." started.promise
    let handled := getInitialResultSet.callback self promise cancellable.is_cancelled reply random
    { provider := handled.provider, promise := handled.promise, request := some url }

/-- The method `getSubsearchResultSet(results, terms, cancellable)`: throws when
the token is already cancelled, and otherwise is `getInitialResultSet`. -/
def getSubsearchResultSet (messageNew : String → Bool) (self : GoogleSearchProvider)
    (_results : List String) (terms : List String) (cancellable : Cancellable) (reply : Reply)
    (random : Nat → Fin 62) : Except String SearchOutcome :=
  if cancellable.atCall then .error "Search Cancelled"
  else .ok (getInitialResultSet messageNew self terms cancellable reply random)

/-! ## The provider as a state machine -/

/-- One step of the single control flow that runs on a provider: a call of one
of its methods, or the completion handler of a request issued earlier. -/
inductive Op where
  | getInitialResultSet (terms : List String) (cancelled : Bool)
  | callback (cancelled : Bool) (reply : Reply) (random : Nat → Fin 62)
  | getSubsearchResultSet (results terms : List String) (cancelled : Bool)
  | getResultMetas (results : List String) (cancelled : Bool)
  | filterResults (results : List String) (maxResults : Int)
  | activateResult (result : String)
  | launchSearch (terms : List String)
  | createResultObject (meta : ResultMeta)
  | createUID

/-- The provider after one step. Only the completion handler assigns to fields
of the provider; the executor of `getInitialResultSet` and the other methods
read them. -/
def step (self : GoogleSearchProvider) : Op → GoogleSearchProvider
  | .callback cancelled reply random =>
    (getInitialResultSet.callback self .pending cancelled reply random).provider
  | .getInitialResultSet _ _ => self
  | .getSubsearchResultSet _ _ _ => self
  | .getResultMetas _ _ => self
  | .filterResults _ _ => self
  | .activateResult _ => self
  | .launchSearch _ => self
  | .createResultObject _ => self
  | .createUID => self

/-- The provider after a sequence of steps. -/
def run (self : GoogleSearchProvider) : List Op → GoogleSearchProvider
  | [] => self
  | op :: ops => run (step self op) ops

/-! ## `enable()` of the extension -/

/-- The `Gio.Settings` object, as its `get_string`. -/
abbrev Settings := String → String

/-- The settings after the key `name` is written. -/
def Settings.set_string (settings : Settings) (name value : String) : Settings :=
  fun n => if n = name then value else settings n

/-- The extension after `enable()`: the settings object, the two local variables
`apiKey` and `cxKey` of `enable` (kept alive by the change handlers) and the
provider. -/
structure GooogleSearchExtension where
  _settings : Settings
  apiKey : String
  cxKey : String
  _provider : GoogleSearchProvider

/-- The method `enable()`. -/
def enable (settings : Settings) : GooogleSearchExtension :=
  let apiKey := settings "api-key"
  let cxKey := settings "cx"
  { _settings := settings, apiKey := apiKey, cxKey := cxKey,
    _provider := GoogleSearchProvider.constructor apiKey cxKey }

/-- A write of `value` to the settings key `name` after `enable()`, followed by
the handlers connected to `changed::api-key` and `changed::cx`, each of which
assigns `settings.get_string(key)` to its local variable. -/
def settingsChanged (ext : GooogleSearchExtension) (name value : String) : GooogleSearchExtension :=
  let settings := ext._settings.set_string name value
  { _settings := settings,
    apiKey := if name = "api-key" then settings name else ext.apiKey,
    cxKey := if name = "cx" then settings name else ext.cxKey,
    _provider := ext._provider }

/-! ## Reading a query string back

The inverse operations the specification appeals to: splitting on the join
separator and percent-decoding. They are not part of the provider. -/

/-- The value of a hexadecimal digit. -/
def hexValue (c : Char) : Option Nat :=
  if 48 ≤ c.toNat ∧ c.toNat ≤ 57 then some (c.toNat - 48)
  else if 65 ≤ c.toNat ∧ c.toNat ≤ 70 then some (c.toNat - 55)
  else if 97 ≤ c.toNat ∧ c.toNat ≤ 102 then some (c.toNat - 87)
  else none

/-- Percent-decoding to octets: `%XX` is the octet `XX`, any other character
stands for its own UTF-8 octets; a `%` not followed by two hexadecimal digits is
an error. -/
def unescapeOctets : List Char → Option (List Nat)
  | [] => some []
  | c :: rest =>
    if c = '%' then
      match rest with
      | h :: l :: rest2 =>
        match hexValue h, hexValue l, unescapeOctets rest2 with
        | some a, some b, some octets => some ((16 * a + b) :: octets)
        | _, _, _ => none
      | _ => none
    else
      match unescapeOctets rest with
      | some octets => some (utf8Bytes c.toNat ++ octets)
      | none => none

/-- A UTF-8 continuation octet. -/
def isContinuation (b : Nat) : Bool := decide (0x80 ≤ b) && decide (b < 0xC0)

/-- The character of a decoded code point, provided the code point needs the
number of octets it was written in (at least `low`) and is a scalar value. -/
def scalar (low cp : Nat) : Option Char :=
  if low ≤ cp ∧ (cp < 0xD800 ∨ (0xDFFF < cp ∧ cp < 0x110000)) then some (Char.ofNat cp) else none

/-- UTF-8 decoding of a sequence of octets, one octet at a time: `need` is the
number of continuation octets still expected for the current character, `acc`
the bits of its code point read so far and `low` the least code point that may
be written with that many octets. -/
def utf8DecodeFrom : Nat → Nat → Nat → List Nat → Option (List Char)
  | 0, _, _, [] => some []
  | _ + 1, _, _, [] => none
  | 0, _, _, b :: rest =>
    if b < 0x80 then
      match utf8DecodeFrom 0 0 0 rest with
      | some cs => some (Char.ofNat b :: cs)
      | none => none
    else if b < 0xC0 then none
    else if b < 0xE0 then utf8DecodeFrom 1 (b - 0xC0) 0x80 rest
    else if b < 0xF0 then utf8DecodeFrom 2 (b - 0xE0) 0x800 rest
    else if b < 0xF8 then utf8DecodeFrom 3 (b - 0xF0) 0x10000 rest
    else none
  | need + 1, acc, low, b :: rest =>
    if isContinuation b then
      if need = 0 then
        match scalar low (acc * 64 + (b - 0x80)), utf8DecodeFrom 0 0 0 rest with
        | some c, some cs => some (c :: cs)
        | _, _ => none
      else utf8DecodeFrom need (acc * 64 + (b - 0x80)) low rest
    else none

/-- UTF-8 decoding of a sequence of octets. -/
def utf8Decode (octets : List Nat) : Option (List Char) := utf8DecodeFrom 0 0 0 octets

/-- Percent-decoding of a string: its octets, read as UTF-8; `none` when the
string is not a percent-encoding. -/
def percentDecode (s : String) : Option String :=
  match unescapeOctets s.data with
  | some octets =>
    match utf8Decode octets with
    | some cs => some (String.mk cs)
    | none => none
  | none => none

/-- Splitting a string on a separator character, as `String.prototype.split`
does: a string without separator is its own single piece. -/
def split (s : String) (sep : Char) : List String := (s.data.splitOn sep).map String.mk

/-- An item of the response carries both required properties, `title` and `link`. -/
def Item.wellFormed (item : Item) : Bool := item.title.isSome && item.link.isSome

/-! ## Replies and ids used in the statements -/

/-- The reply signals HTTP 429 the way the completion handler recognises it:
the exchange itself succeeds and `message.get_status()` throws an error whose
message includes `429`. -/
def Reply.signals429 (reply : Reply) : Bool :=
  !reply.finishThrows &&
    match reply.status with
    | .throws message => includes message "429"
    | .ok _ => false

/-- The reply of a request answered with HTTP 200 and a JSON body whose `items`
array is `items`. -/
def okReply (items : List Item) : Reply :=
  { finishThrows := false, status := .ok 200, body := .parsed (some items) }

/-- The ids that the loop of the completion handler generates for `n` items:
the `k`-th is `createUID()` on the draws from `32 * k` on. -/
def freshIds (random : Nat → Fin 62) : Nat → List String
  | 0 => []
  | n + 1 => createUID random :: freshIds (fun i => random (i + 32)) n

/-! ## Sample values -/

/-- A reply of a request that ran into the quota. -/
def quotaReply : Reply :=
  { finishThrows := false, status := .throws "429 is not a valid value for enumeration Status",
    body := .syntaxError }

/-- The case in which `Soup.Message.new` yields a message for the URI it is given. -/
def acceptUri : String → Bool := fun _ => true

/-- A random source whose every draw is 0. -/
def zeroDraws : Nat → Fin 62 := fun _ => 0

/-- A random source that draws 0 for the first id and 1 afterwards. -/
def abDraws : Nat → Fin 62 := fun i => if i < 32 then 0 else 1

/-- The id made of 32 draws of 0. -/
def uidA : String := "AAAAAAAAAAAAAAAAAAAAAAAAAAAAAAAA"

/-- The id made of 32 draws of 1. -/
def uidB : String := "BBBBBBBBBBBBBBBBBBBBBBBBBBBBBBBB"

/-- A provider fresh from its constructor. -/
def sampleProvider : GoogleSearchProvider := GoogleSearchProvider.constructor "KEY" "CX"

/-- A provider whose one request so far was answered with 429. -/
def limitedProvider : GoogleSearchProvider :=
  run sampleProvider [.callback false quotaReply zeroDraws]

/-- Settings with the API key `K1` and the search context `C1`. -/
def sampleSettings : Settings :=
  fun n => if n = "api-key" then "K1" else if n = "cx" then "C1" else ""

/-- A well-formed item. -/
def itemA : Item := { title := some "A", link := some "http://a", thumbnail := none }

/-- A second well-formed item. -/
def itemB : Item := { title := some "B", link := some "http://b", thumbnail := none }

/-- An item without `link`. -/
def itemNoLink : Item := { title := some "B", link := none, thumbnail := none }

/-- An uncancelled token. -/
def liveToken : Cancellable := { atCall := false, inFlight := false }

/-- A token cancelled before the call. -/
def cancelledToken : Cancellable := { atCall := true, inFlight := false }

/-- A token cancelled while the request is in flight. -/
def lateCancelledToken : Cancellable := { atCall := false, inFlight := true }

/-- The URL of the Custom Search request for `cats` with key `KEY` and context `CX`. -/
def catsUrl : String := "https://customsearch.googleapis.com/customsearch/v1?cx=CX&key=KEY&q=cats"

/-! # Properties -/

/-! ## `filterResults` -/

theorem filterResults_eq_take (ids : List String) (maxCount : Int) (h : 0 ≤ maxCount) :
    filterResults ids maxCount = ids.take (min maxCount.toNat ids.length) := by
  unfold filterResults slice
  split
  · rw [Nat.min_eq_right (by omega), List.take_length]
  · rw [if_neg (by omega)]

theorem filterResults_length_le (ids : List String) (maxCount : Int) (h : 0 ≤ maxCount) :
    ((filterResults ids maxCount).length : Int) ≤ maxCount := by
  rw [filterResults_eq_take ids maxCount h, List.length_take]; omega

/-- C9: for every sequence `ids` and every count `maxCount >= 0`, `filterResults`
returns the first `min maxCount ids.length` elements of `ids` in their order; the
result never has more than `maxCount` elements, and it is `ids` itself when
`maxCount` is at least the length of `ids`. -/
theorem filterResults_spec (ids : List String) (maxCount : Int) (h : 0 ≤ maxCount) :
    filterResults ids maxCount = ids.take (min maxCount.toNat ids.length) ∧
    ((filterResults ids maxCount).length : Int) ≤ maxCount ∧
    ((ids.length : Int) ≤ maxCount → filterResults ids maxCount = ids) := by
  refine ⟨filterResults_eq_take ids maxCount h, filterResults_length_le ids maxCount h, ?_⟩
  intro hlen; simp [filterResults, hlen]

/-- C9, at a concrete input: three ids truncated to two. -/
theorem filterResults_spec_witness :
    filterResults ["a", "b", "c"] 2
      = ["a", "b", "c"].take (min (2 : Int).toNat ["a", "b", "c"].length) ∧
    ((filterResults ["a", "b", "c"] 2).length : Int) ≤ 2 ∧
    ((["a", "b", "c"].length : Int) ≤ 2 → filterResults ["a", "b", "c"] 2 = ["a", "b", "c"]) :=
  filterResults_spec ["a", "b", "c"] 2 (by decide)

/-- C10 (as stated, refuted): with the count `-1` the end position of `slice`
counts from the end of the array, so each application drops the last element:
three ids become two, and the two become one. -/
theorem filterResults_negative_not_idempotent :
    filterResults ["a", "b", "c"] (-1) = ["a", "b"] ∧
    filterResults (filterResults ["a", "b", "c"] (-1)) (-1) = ["a"] ∧
    filterResults (filterResults ["a", "b", "c"] (-1)) (-1)
      ≠ filterResults ["a", "b", "c"] (-1) := by
  decide

/-- C10 (amended): for every sequence `ids` and every count `n >= 0`,
`filterResults` applied twice with `n` gives what it gives applied once. -/
theorem filterResults_idempotent (ids : List String) (n : Int) (h : 0 ≤ n) :
    filterResults (filterResults ids n) n = filterResults ids n := by
  have hlen : ((filterResults ids n).length : Int) ≤ n := filterResults_length_le ids n h
  show (if ((filterResults ids n).length : Int) ≤ n then filterResults ids n
    else slice (filterResults ids n) n) = filterResults ids n
  rw [if_pos hlen]

/-- C10, at a concrete input: three ids and the count 2. -/
theorem filterResults_idempotent_witness :
    filterResults (filterResults ["a", "b", "c"] 2) 2 = filterResults ["a", "b", "c"] 2 :=
  filterResults_idempotent ["a", "b", "c"] 2 (by decide)

/-! ## The rate-limit flag -/

theorem callback_keeps_flag (self : GoogleSearchProvider) (promise : Promise (List String))
    (cancelled : Bool) (reply : Reply) (random : Nat → Fin 62)
    (h : self._too_many_requests = true) :
    (getInitialResultSet.callback self promise cancelled reply random).provider._too_many_requests
      = true := by
  unfold getInitialResultSet.callback
  split
  · exact h
  · split
    · split <;> simp [h]
    · split
      · split <;> simp [h]
      · exact h

theorem step_keeps_flag (self : GoogleSearchProvider) (op : Op)
    (h : self._too_many_requests = true) : (step self op)._too_many_requests = true := by
  cases op <;> first | exact h | exact callback_keeps_flag self _ _ _ _ h

theorem run_keeps_flag (ops : List Op) (self : GoogleSearchProvider)
    (h : self._too_many_requests = true) : (run self ops)._too_many_requests = true := by
  induction ops generalizing self with
  | nil => exact h
  | cons op ops ih => exact ih (step self op) (step_keeps_flag self op h)

theorem search_when_rateLimited (messageNew : String → Bool) (self : GoogleSearchProvider)
    (terms : List String) (cancellable : Cancellable) (reply : Reply) (random : Nat → Fin 62)
    (h : self._too_many_requests = true) :
    getInitialResultSet messageNew self terms cancellable reply random =
      { provider := self,
        promise := if cancellable.atCall then .rejected "Search Cancelled."
          else .fulfilled [tooManyRequests],
        request := none } := by
  cases hc : cancellable.atCall <;>
    simp [getInitialResultSet, getInitialResultSet.executor, h, connect, hc, Promise.resolve,
      Promise.reject]

/-- C1 (as stated, refuted): on a provider whose flag was set by a 429 reply, a
`getInitialResultSet` call with a token that is already cancelled does not
resolve to the sentinel sequence: its promise is rejected. -/
theorem rateLimited_cancelled_call_rejects :
    limitedProvider._too_many_requests = true ∧
    (getInitialResultSet acceptUri limitedProvider ["cats"] cancelledToken quotaReply
      zeroDraws).promise = .rejected "Search Cancelled." ∧
    (getInitialResultSet acceptUri limitedProvider ["cats"] cancelledToken quotaReply
      zeroDraws).promise ≠ .fulfilled [tooManyRequests] := by
  decide

/-- C1 (amended): once the flag is set it stays set through every further
sequence of provider steps, and in every such state a `getInitialResultSet` call,
for every term sequence, issues no HTTP request, leaves the provider (its result
store included) as it is, and resolves to the sentinel sequence unless its token is
already cancelled, in which case it is rejected as cancelled. -/
theorem rateLimit_sticky (messageNew : String → Bool) (self : GoogleSearchProvider)
    (ops : List Op) (terms : List String) (cancellable : Cancellable) (reply : Reply)
    (random : Nat → Fin 62) (h : self._too_many_requests = true) :
    (run self ops)._too_many_requests = true ∧
    getInitialResultSet messageNew (run self ops) terms cancellable reply random =
      { provider := run self ops,
        promise := if cancellable.atCall then .rejected "Search Cancelled."
          else .fulfilled [tooManyRequests],
        request := none } :=
  ⟨run_keeps_flag ops self h,
    search_when_rateLimited messageNew (run self ops) terms cancellable reply random
      (run_keeps_flag ops self h)⟩

/-- C1, at a concrete input: a provider limited by a 429 reply, two further
steps, then a search for `dogs` with an uncancelled token. -/
theorem rateLimit_sticky_witness :
    limitedProvider._too_many_requests = true ∧
    (run limitedProvider [.callback false (okReply [itemA]) zeroDraws,
      .getResultMetas [tooManyRequests] false])._too_many_requests = true ∧
    getInitialResultSet acceptUri
      (run limitedProvider [.callback false (okReply [itemA]) zeroDraws,
        .getResultMetas [tooManyRequests] false]) ["dogs"] liveToken (okReply [itemB]) abDraws =
      { provider := run limitedProvider [.callback false (okReply [itemA]) zeroDraws,
          .getResultMetas [tooManyRequests] false],
        promise := .fulfilled [tooManyRequests],
        request := none } :=
  ⟨by decide,
    rateLimit_sticky acceptUri limitedProvider
      [.callback false (okReply [itemA]) zeroDraws, .getResultMetas [tooManyRequests] false]
      ["dogs"] liveToken (okReply [itemB]) abDraws (by decide)⟩

/-! ## A reply with HTTP 429 -/

/-- C2 (as stated, refuted): the provider is not rate limited and the reply
signals 429, but the token was cancelled while the request was in flight: the
promise is rejected instead of resolving with the sentinel. -/
theorem cancelled_429_rejects :
    sampleProvider._too_many_requests = false ∧ quotaReply.signals429 = true ∧
    (getInitialResultSet acceptUri sampleProvider ["cats"] lateCancelledToken quotaReply
      zeroDraws).promise = .rejected "Search Cancelled." ∧
    (getInitialResultSet acceptUri sampleProvider ["cats"] lateCancelledToken quotaReply
      zeroDraws).promise ≠ .fulfilled [tooManyRequests] := by
  decide

/-- C2 (amended): for every term sequence, when the provider is not yet rate
limited, the request is issued and its reply signals HTTP 429, the flag becomes
true and no other field of the provider changes (the sentinel is not put into the
result store); the promise resolves with exactly the sentinel when the token is
not cancelled by the time the reply is handled, and is rejected as cancelled
otherwise. -/
theorem search_on_429 (messageNew : String → Bool) (self : GoogleSearchProvider)
    (terms : List String) (cancellable : Cancellable) (reply : Reply) (random : Nat → Fin 62)
    (hflag : self._too_many_requests = false)
    (hmsg : messageNew (requestUrl self terms) = true)
    (h429 : reply.signals429 = true) :
    getInitialResultSet messageNew self terms cancellable reply random =
      { provider := { self with _too_many_requests := true },
        promise := if cancellable.is_cancelled then .rejected "Search Cancelled."
          else .fulfilled [tooManyRequests],
        request := some (requestUrl self terms) } := by
  obtain ⟨fin, status, body⟩ := reply
  obtain ⟨atCall, inFlight⟩ := cancellable
  cases status with
  | ok code => simp [Reply.signals429] at h429
  | throws message =>
    simp only [Reply.signals429, Bool.and_eq_true, Bool.not_eq_true'] at h429
    obtain ⟨hfin, hinc⟩ := h429
    have hfin' : fin = false := hfin
    subst hfin'
    cases atCall <;> cases inFlight <;>
      simp [getInitialResultSet, getInitialResultSet.executor, getInitialResultSet.callback, hflag,
        hmsg, hinc, connect, Promise.resolve, Promise.reject, Cancellable.is_cancelled]

/-- C2, at a concrete input: a fresh provider, the terms `cats`, an uncancelled
token and a 429 reply. -/
theorem search_on_429_witness :
    getInitialResultSet acceptUri sampleProvider ["cats"] liveToken quotaReply zeroDraws =
      { provider := { sampleProvider with _too_many_requests := true },
        promise := .fulfilled [tooManyRequests],
        request := some catsUrl } :=
  search_on_429 acceptUri sampleProvider ["cats"] liveToken quotaReply zeroDraws
    (by decide) (by decide) (by decide)

/-! ## Cancellation before the call -/

/-- C6 (the code at the failing input): a fresh provider, the terms `cats` and a
token that is already cancelled. The promise is rejected as cancelled, yet the GET
request is issued, and the items of its 200 reply are stored. -/
theorem cancelled_call_still_requests :
    getInitialResultSet acceptUri sampleProvider ["cats"] cancelledToken (okReply [itemA])
      zeroDraws =
      { provider := { sampleProvider with _itemMap := [(uidA, itemA)], _items := some [itemA] },
        promise := .rejected "Search Cancelled.",
        request := some catsUrl } := by
  decide

theorem subsearch_cancelled_throws (messageNew : String → Bool) (self : GoogleSearchProvider)
    (results terms : List String) (inFlight : Bool) (reply : Reply) (random : Nat → Fin 62) :
    getSubsearchResultSet messageNew self results terms { atCall := true, inFlight := inFlight }
      reply random = .error "Search Cancelled" := by
  simp [getSubsearchResultSet]

/-! ## Credentials -/

/-- C7 (the code at the failing input): the extension is enabled with the key
`K1` and the context `C1`, then the `api-key` setting is changed to `K2`. The
setting and the local variable of `enable` hold `K2`, but the URL of the next
request of the provider still carries `key=K1`. -/
theorem changed_key_not_used :
    (settingsChanged (enable sampleSettings) "api-key" "K2")._settings "api-key" = "K2" ∧
    (settingsChanged (enable sampleSettings) "api-key" "K2").apiKey = "K2" ∧
    (getInitialResultSet.executor acceptUri
      (settingsChanged (enable sampleSettings) "api-key" "K2")._provider ["cats"] false).request
      = some "https://customsearch.googleapis.com/customsearch/v1?cx=C1&key=K1&q=cats" := by
  decide

theorem provider_keeps_credentials (settings : Settings) (changes : List (String × String)) :
    (changes.foldl (fun ext change => settingsChanged ext change.1 change.2)
      (enable settings))._provider
      = GoogleSearchProvider.constructor (settings "api-key") (settings "cx") := by
  have h : ∀ (ext : GooogleSearchExtension),
      (changes.foldl (fun ext change => settingsChanged ext change.1 change.2) ext)._provider
        = ext._provider := by
    induction changes with
    | nil => intro ext; rfl
    | cons c cs ih => intro ext; rw [List.foldl_cons, ih]; rfl
  rw [h]; rfl
/-! ## The result store -/

theorem ItemMap.get_set_self (m : ItemMap) (k : String) (v : Item) :
    (m.set k v).get k = some v := by
  induction m with
  | nil => simp [ItemMap.set, ItemMap.get]
  | cons e rest ih =>
    obtain ⟨k', v'⟩ := e
    by_cases h : k' = k
    · simp [ItemMap.set, ItemMap.get, h]
    · simp [ItemMap.set, ItemMap.get, h, ih]

theorem ItemMap.get_set_ne (m : ItemMap) (k k' : String) (v : Item) (h : k ≠ k') :
    (m.set k v).get k' = m.get k' := by
  induction m with
  | nil => simp [ItemMap.set, ItemMap.get, h]
  | cons e rest ih =>
    obtain ⟨k0, v0⟩ := e
    by_cases h0 : k0 = k
    · subst h0; simp [ItemMap.set, ItemMap.get, h]
    · simp [ItemMap.set, ItemMap.get, h0, ih]

theorem ItemMap.size_set_fresh (m : ItemMap) (k : String) (v : Item) (h : m.get k = none) :
    (m.set k v).size = m.size + 1 := by
  induction m with
  | nil => simp [ItemMap.set, ItemMap.size]
  | cons e rest ih =>
    obtain ⟨k0, v0⟩ := e
    by_cases h0 : k0 = k
    · simp [ItemMap.get, h0] at h
    · simp only [ItemMap.get, h0, if_false] at h
      have := ih h
      simp [ItemMap.set, ItemMap.size, h0] at this ⊢
      exact this

theorem storeItems_ids (items : List Item) (random : Nat → Fin 62) (ids : List String)
    (m : ItemMap) : (storeItems random items ids m).1 = ids ++ freshIds random items.length := by
  induction items generalizing random ids m with
  | nil => simp [storeItems, freshIds]
  | cons item rest ih => simp [storeItems, freshIds, ih]

theorem storeItems_get_other (items : List Item) (random : Nat → Fin 62) (ids : List String)
    (m : ItemMap) (key : String) (h : key ∉ freshIds random items.length) :
    (storeItems random items ids m).2.get key = m.get key := by
  induction items generalizing random ids m with
  | nil => simp [storeItems]
  | cons item rest ih =>
    simp only [List.length_cons, freshIds, List.mem_cons, not_or] at h
    simp only [storeItems]
    rw [ih _ _ _ h.2, ItemMap.get_set_ne _ _ _ _ (Ne.symm h.1)]

theorem storeItems_get (items : List Item) (random : Nat → Fin 62) (ids : List String)
    (m : ItemMap) (hnodup : (freshIds random items.length).Nodup) (j : Nat) (id : String)
    (item : Item) (hid : (freshIds random items.length)[j]? = some id)
    (hitem : items[j]? = some item) :
    (storeItems random items ids m).2.get id = some item := by
  induction items generalizing random ids m j with
  | nil => simp at hitem
  | cons first rest ih =>
    simp only [List.length_cons, freshIds, List.nodup_cons] at hnodup hid
    simp only [storeItems]
    cases j with
    | zero =>
      simp only [List.getElem?_cons_zero, Option.some.injEq] at hid hitem
      subst hid; subst hitem
      rw [storeItems_get_other _ _ _ _ _ hnodup.1, ItemMap.get_set_self]
    | succ j =>
      simp only [List.getElem?_cons_succ] at hid hitem
      exact ih _ _ _ hnodup.2 j hid hitem

theorem storeItems_size (items : List Item) (random : Nat → Fin 62) (ids : List String)
    (m : ItemMap) (hnodup : (freshIds random items.length).Nodup)
    (hfresh : ∀ id ∈ freshIds random items.length, m.get id = none) :
    (storeItems random items ids m).2.size = m.size + items.length := by
  induction items generalizing random ids m with
  | nil => simp [storeItems]
  | cons first rest ih =>
    simp only [List.length_cons, freshIds, List.nodup_cons, List.mem_cons, forall_eq_or_imp]
      at hnodup hfresh
    simp only [storeItems, List.length_cons]
    rw [ih _ _ _ hnodup.2, ItemMap.size_set_fresh _ _ _ hfresh.1]
    · omega
    · intro id hid
      have hne : createUID random ≠ id := fun h => hnodup.1 (h ▸ hid)
      rw [ItemMap.get_set_ne _ _ _ _ hne]
      exact hfresh.2 id hid

theorem search_on_200 (messageNew : String → Bool) (self : GoogleSearchProvider)
    (terms : List String) (cancellable : Cancellable) (items : List Item) (random : Nat → Fin 62)
    (hflag : self._too_many_requests = false)
    (hmsg : messageNew (requestUrl self terms) = true) :
    getInitialResultSet messageNew self terms cancellable (okReply items) random =
      { provider := { self with _items := some items,
                                _itemMap := (storeItems random items [] self._itemMap).2 },
        promise := if cancellable.is_cancelled then .rejected "Search Cancelled."
          else .fulfilled (freshIds random items.length),
        request := some (requestUrl self terms) } := by
  obtain ⟨atCall, inFlight⟩ := cancellable
  have hids := storeItems_ids items random [] self._itemMap
  rw [List.nil_append] at hids
  cases atCall <;> cases inFlight <;>
    simp [getInitialResultSet, getInitialResultSet.executor, getInitialResultSet.callback, hflag,
      hmsg, connect, Promise.resolve, Promise.reject, Cancellable.is_cancelled, okReply, hids]

theorem freshIds_length (n : Nat) (random : Nat → Fin 62) : (freshIds random n).length = n := by
  induction n generalizing random with
  | zero => rfl
  | succ n ih => simp [freshIds, ih]

/-- C3 (as stated, refuted): two items answered with HTTP 200, and a random
source that repeats itself. Both returned ids are the same string, and
activating the first returned id opens the link of the second item. -/
theorem colliding_ids_activate :
    (getInitialResultSet acceptUri sampleProvider ["cats"] liveToken (okReply [itemA, itemB])
      zeroDraws).promise = .fulfilled [uidA, uidA] ∧
    itemA.link = some "http://a" ∧
    activateResult (getInitialResultSet acceptUri sampleProvider ["cats"] liveToken
      (okReply [itemA, itemB]) zeroDraws).provider uidA = .ok (some "http://b") :=
  ⟨by decide, by decide, by rfl⟩

/-- C3 (amended): for every `getInitialResultSet` call on a provider that is not
rate limited, with an uncancelled token, whose HTTP 200 response carries the
items `i_1 .. i_k`: the call resolves with `k` ids, and, provided these ids (the
ones `createUID` generated during the call) are pairwise distinct, for every
position `j` the lookup of `activateResult` on the `j`-th returned id yields the
link of `i_j`. -/
theorem search_then_activate (messageNew : String → Bool) (self : GoogleSearchProvider)
    (terms : List String) (cancellable : Cancellable) (items : List Item) (random : Nat → Fin 62)
    (hflag : self._too_many_requests = false)
    (hmsg : messageNew (requestUrl self terms) = true)
    (hcancel : cancellable.is_cancelled = false) :
    ∃ ids, (getInitialResultSet messageNew self terms cancellable (okReply items) random).promise
        = .fulfilled ids ∧
      ids.length = items.length ∧
      (ids.Nodup →
        ∀ (j : Nat) (id : String) (item : Item), ids[j]? = some id → items[j]? = some item →
          activateResult
            (getInitialResultSet messageNew self terms cancellable (okReply items) random).provider
            id = .ok item.link) := by
  rw [search_on_200 messageNew self terms cancellable items random hflag hmsg]
  refine ⟨freshIds random items.length, by simp [hcancel], freshIds_length _ _, ?_⟩
  intro hnodup j id item hid hitem
  simp [activateResult, storeItems_get items random [] self._itemMap hnodup j id item hid hitem]

/-- C3, at a concrete input: two items and two distinct ids. -/
theorem search_then_activate_witness :
    ∃ ids, (getInitialResultSet acceptUri sampleProvider ["cats"] liveToken
        (okReply [itemA, itemB]) abDraws).promise = .fulfilled ids ∧
      ids.length = [itemA, itemB].length ∧
      (ids.Nodup →
        ∀ (j : Nat) (id : String) (item : Item), ids[j]? = some id →
          [itemA, itemB][j]? = some item →
          activateResult (getInitialResultSet acceptUri sampleProvider ["cats"] liveToken
            (okReply [itemA, itemB]) abDraws).provider id = .ok item.link) :=
  search_then_activate acceptUri sampleProvider ["cats"] liveToken [itemA, itemB] abDraws
    (by decide) (by decide) (by decide)

/-- C5 (as stated, refuted): a 200 response with one well-formed item and one
item without `link`. The call returns two ids and stores two records, the
malformed item among them. -/
theorem malformed_item_is_stored :
    ([itemA, itemNoLink].filter Item.wellFormed).length = 1 ∧
    (getInitialResultSet acceptUri sampleProvider ["cats"] liveToken
      (okReply [itemA, itemNoLink]) abDraws).promise = .fulfilled [uidA, uidB] ∧
    (getInitialResultSet acceptUri sampleProvider ["cats"] liveToken
      (okReply [itemA, itemNoLink]) abDraws).provider._itemMap
      = [(uidA, itemA), (uidB, itemNoLink)] := by
  decide

/-- C5 (amended): for every HTTP 200 response, whatever mix of well-formed and
malformed items its array holds, a `getInitialResultSet` call with an
uncancelled token on a provider that is not rate limited does not fail and
returns exactly one id per item of the array, malformed items included. When the
returned ids are pairwise distinct, every item, malformed or not, is stored under
the id at its position, and when they are moreover not yet keys of the store,
the store grows by exactly one record per item of the array. -/
theorem search_stores_every_item (messageNew : String → Bool) (self : GoogleSearchProvider)
    (terms : List String) (cancellable : Cancellable) (items : List Item) (random : Nat → Fin 62)
    (hflag : self._too_many_requests = false)
    (hmsg : messageNew (requestUrl self terms) = true)
    (hcancel : cancellable.is_cancelled = false) :
    ∃ ids, (getInitialResultSet messageNew self terms cancellable (okReply items) random).promise
        = .fulfilled ids ∧
      ids.length = items.length ∧
      (ids.Nodup →
        (∀ (j : Nat) (id : String) (item : Item), ids[j]? = some id → items[j]? = some item →
          (getInitialResultSet messageNew self terms cancellable (okReply items)
            random).provider._itemMap.get id = some item) ∧
        ((∀ id ∈ ids, self._itemMap.get id = none) →
          (getInitialResultSet messageNew self terms cancellable (okReply items)
            random).provider._itemMap.size = self._itemMap.size + items.length)) := by
  rw [search_on_200 messageNew self terms cancellable items random hflag hmsg]
  refine ⟨freshIds random items.length, by simp [hcancel], freshIds_length _ _, ?_⟩
  intro hnodup
  refine ⟨?_, ?_⟩
  · intro j id item hid hitem
    exact storeItems_get items random [] self._itemMap hnodup j id item hid hitem
  · intro hfresh
    exact storeItems_size items random [] self._itemMap hnodup hfresh

/-- C5, at a concrete input: one well-formed item and one without `link`. -/
theorem search_stores_every_item_witness :
    ∃ ids, (getInitialResultSet acceptUri sampleProvider ["cats"] liveToken
        (okReply [itemA, itemNoLink]) abDraws).promise = .fulfilled ids ∧
      ids.length = [itemA, itemNoLink].length ∧
      (ids.Nodup →
        (∀ (j : Nat) (id : String) (item : Item), ids[j]? = some id →
          [itemA, itemNoLink][j]? = some item →
          (getInitialResultSet acceptUri sampleProvider ["cats"] liveToken
            (okReply [itemA, itemNoLink]) abDraws).provider._itemMap.get id = some item) ∧
        ((∀ id ∈ ids, sampleProvider._itemMap.get id = none) →
          (getInitialResultSet acceptUri sampleProvider ["cats"] liveToken
            (okReply [itemA, itemNoLink]) abDraws).provider._itemMap.size
            = sampleProvider._itemMap.size + [itemA, itemNoLink].length)) :=
  search_stores_every_item acceptUri sampleProvider ["cats"] liveToken [itemA, itemNoLink] abDraws
    (by decide) (by decide) (by decide)

/-! ## `getResultMetas` -/

theorem resultMetasLoop_stored (itemMap : ItemMap) (ids : List String)
    (h : ∀ id ∈ ids, (itemMap.get id).isSome = true) :
    resultMetasLoop itemMap ids
      = some (ids.map fun id => { id := some id, name := (itemMap.get id).bind Item.title }) := by
  induction ids with
  | nil => rfl
  | cons id rest ih =>
    simp only [List.mem_cons, forall_eq_or_imp] at h
    obtain ⟨item, hitem⟩ := Option.isSome_iff_exists.mp h.1
    simp [resultMetasLoop, hitem, ih h.2]

/-- C4 (as stated, refuted): a provider that stored item `A` under an id and was
rate limited afterwards. For that id, a key of the store that is not the
sentinel, `getResultMetas` answers with the id itself as display name, not with
the title `A` of the stored record. -/
theorem rateLimited_meta_of_stored_id :
    (run sampleProvider [.callback false (okReply [itemA]) zeroDraws,
      .callback false quotaReply zeroDraws])._itemMap.get uidA = some itemA ∧
    itemA.title = some "A" ∧
    getResultMetas (run sampleProvider [.callback false (okReply [itemA]) zeroDraws,
      .callback false quotaReply zeroDraws]) [uidA] false
      = .fulfilled [{ id := some uidA, name := some uidA }] := by
  decide

/-- C4 (amended): for every provider state, every sequence `ids` and an
uncancelled token. When the provider is not rate limited and every id of `ids` is
a key of the result store, `getResultMetas` resolves with a sequence of the length
of `ids`, in the order of `ids`, whose `j`-th element has the id `ids[j]` and as
display name the title of the record stored under `ids[j]`. When the provider is
rate limited, it resolves with exactly one element, whose id and display name are
both the first element of `ids` (the fixed message for `ids = [sentinel]`). -/
theorem getResultMetas_resolves (self : GoogleSearchProvider) (ids : List String)
    (hstored : self._too_many_requests = false →
      ∀ id ∈ ids, (self._itemMap.get id).isSome = true) :
    getResultMetas self ids false = .fulfilled
      (if self._too_many_requests then [{ id := ids.head?, name := ids.head? }]
       else ids.map fun id => { id := some id, name := (self._itemMap.get id).bind Item.title }) := by
  cases hflag : self._too_many_requests with
  | true => simp [getResultMetas, hflag, connect, Promise.resolve, catchReject]
  | false =>
    simp [getResultMetas, hflag, connect, Promise.resolve, catchReject,
      resultMetasLoop_stored _ _ (hstored hflag)]

/-- C4, at a concrete input: a provider that stored `A` and `B`, asked for the
two ids in reverse order. -/
theorem getResultMetas_resolves_witness :
    getResultMetas (run sampleProvider [.callback false (okReply [itemA, itemB]) abDraws])
      [uidB, uidA] false
      = .fulfilled [{ id := some uidB, name := some "B" }, { id := some uidA, name := some "A" }] :=
  (getResultMetas_resolves (run sampleProvider [.callback false (okReply [itemA, itemB]) abDraws])
    [uidB, uidA] (by decide)).trans (by decide)

/-! ## `launchSearch` -/

theorem hexValue_hexDigit (n : Nat) (h : n < 16) : hexValue (hexDigit n) = some n := by
  interval_cases n <;> decide

theorem hexDigit_ne_plus (n : Nat) : hexDigit n ≠ '+' := by
  by_cases h : n < 16
  · interval_cases n <;> decide
  · have : "0123456789ABCDEF".data.length ≤ n := by simp; omega
    simp [hexDigit, List.getD, List.getElem?_eq_none this]

theorem unescapeOctets_percentOctet (b : Nat) (hb : b < 256) (rest : List Char) :
    unescapeOctets (percentOctet b ++ rest) = (unescapeOctets rest).map (b :: ·) := by
  have h1 : hexValue (hexDigit (b / 16)) = some (b / 16) := hexValue_hexDigit _ (by omega)
  have h2 : hexValue (hexDigit (b % 16)) = some (b % 16) := hexValue_hexDigit _ (by omega)
  have h3 : 16 * (b / 16) + b % 16 = b := by omega
  cases hr : unescapeOctets rest <;>
    simp [percentOctet, unescapeOctets, h1, h2, hr, h3]

theorem unescapeOctets_percentOctets (bs : List Nat) (hbs : ∀ b ∈ bs, b < 256)
    (rest : List Char) :
    unescapeOctets ((bs.map percentOctet).flatten ++ rest)
      = (unescapeOctets rest).map (bs ++ ·) := by
  induction bs with
  | nil => simp
  | cons b bs ih =>
    simp only [List.mem_cons, forall_eq_or_imp] at hbs
    rw [List.map_cons, List.flatten_cons, List.append_assoc,
      unescapeOctets_percentOctet b hbs.1, ih hbs.2]
    cases unescapeOctets rest <;> simp

theorem utf8Bytes_lt (c : Nat) (hc : c < 0x110000) : ∀ b ∈ utf8Bytes c, b < 256 := by
  unfold utf8Bytes
  split_ifs <;> simp <;> omega

theorem char_toNat_lt (c : Char) : c.toNat < 0x110000 := by
  have := c.valid
  unfold UInt32.isValidChar Nat.isValidChar at this
  show c.val.toNat < _
  omega

theorem char_toNat_scalar (c : Char) : c.toNat < 0xD800 ∨ (0xDFFF < c.toNat ∧ c.toNat < 0x110000) := by
  have := c.valid
  unfold UInt32.isValidChar Nat.isValidChar at this
  show c.val.toNat < _ ∨ (_ < c.val.toNat ∧ c.val.toNat < _)
  omega

theorem unescapeOctets_encodeChar (c : Char) (rest : List Char) :
    unescapeOctets (encodeChar c ++ rest)
      = (unescapeOctets rest).map (utf8Bytes c.toNat ++ ·) := by
  unfold encodeChar
  split
  · rename_i hun
    have hne : c ≠ '%' := by
      intro h; subst h; revert hun; decide
    rw [List.singleton_append, unescapeOctets.eq_def]
    cases hr : unescapeOctets rest <;> simp [hne, hr]
  · exact unescapeOctets_percentOctets _ (utf8Bytes_lt _ (char_toNat_lt c)) rest

theorem unescapeOctets_encode (cs : List Char) :
    unescapeOctets ((cs.map encodeChar).flatten)
      = some ((cs.map fun c => utf8Bytes c.toNat).flatten) := by
  induction cs with
  | nil => simp [unescapeOctets]
  | cons c cs ih =>
    rw [List.map_cons, List.flatten_cons, unescapeOctets_encodeChar, ih]
    simp

theorem utf8DecodeFrom_utf8Bytes (c : Char) (rest : List Nat) :
    utf8DecodeFrom 0 0 0 (utf8Bytes c.toNat ++ rest) = (utf8DecodeFrom 0 0 0 rest).map (c :: ·) := by
  have hs := char_toNat_scalar c
  have hc := Char.ofNat_toNat c
  generalize c.toNat = n at hs hc
  unfold utf8Bytes
  split_ifs with h1 h2 h3
  · rw [List.singleton_append, utf8DecodeFrom.eq_3, if_pos h1, hc]
    cases utf8DecodeFrom 0 0 0 rest <;> rfl
  · have e : (0xC0 + n / 64 - 0xC0) * 64 + (0x80 + n % 64 - 0x80) = n := by omega
    have a1 : ¬ (0xC0 + n / 64 < 0x80) := by omega
    have a2 : ¬ (0xC0 + n / 64 < 0xC0) := by omega
    have a3 : 0xC0 + n / 64 < 0xE0 := by omega
    have c1 : isContinuation (0x80 + n % 64) = true := by
      simp only [isContinuation, Bool.and_eq_true, decide_eq_true_eq]; omega
    have s1 : scalar 0x80 n = some c := by
      rw [scalar, if_pos (by omega), hc]
    show utf8DecodeFrom 0 0 0 ((0xC0 + n / 64) :: (0x80 + n % 64) :: rest) = _
    rw [utf8DecodeFrom.eq_3, if_neg a1, if_neg a2, if_pos a3, utf8DecodeFrom.eq_4, if_pos c1,
      if_pos rfl, e, s1]
    cases utf8DecodeFrom 0 0 0 rest <;> rfl
  · have e : ((0xE0 + n / 4096 - 0xE0) * 64 + (0x80 + n / 64 % 64 - 0x80)) * 64
        + (0x80 + n % 64 - 0x80) = n := by omega
    have a1 : ¬ (0xE0 + n / 4096 < 0x80) := by omega
    have a2 : ¬ (0xE0 + n / 4096 < 0xC0) := by omega
    have a3 : ¬ (0xE0 + n / 4096 < 0xE0) := by omega
    have a4 : 0xE0 + n / 4096 < 0xF0 := by omega
    have c1 : isContinuation (0x80 + n / 64 % 64) = true := by
      simp only [isContinuation, Bool.and_eq_true, decide_eq_true_eq]; omega
    have c2 : isContinuation (0x80 + n % 64) = true := by
      simp only [isContinuation, Bool.and_eq_true, decide_eq_true_eq]; omega
    have s1 : scalar 0x800 n = some c := by
      rw [scalar, if_pos (by omega), hc]
    show utf8DecodeFrom 0 0 0
      ((0xE0 + n / 4096) :: (0x80 + n / 64 % 64) :: (0x80 + n % 64) :: rest) = _
    rw [utf8DecodeFrom.eq_3, if_neg a1, if_neg a2, if_neg a3, if_pos a4, utf8DecodeFrom.eq_4,
      if_pos c1, if_neg (by decide), utf8DecodeFrom.eq_4, if_pos c2, if_pos rfl, e, s1]
    cases utf8DecodeFrom 0 0 0 rest <;> rfl
  · have e : (((0xF0 + n / 262144 - 0xF0) * 64 + (0x80 + n / 4096 % 64 - 0x80)) * 64
        + (0x80 + n / 64 % 64 - 0x80)) * 64 + (0x80 + n % 64 - 0x80) = n := by omega
    have a1 : ¬ (0xF0 + n / 262144 < 0x80) := by omega
    have a2 : ¬ (0xF0 + n / 262144 < 0xC0) := by omega
    have a3 : ¬ (0xF0 + n / 262144 < 0xE0) := by omega
    have a4 : ¬ (0xF0 + n / 262144 < 0xF0) := by omega
    have a5 : 0xF0 + n / 262144 < 0xF8 := by omega
    have c1 : isContinuation (0x80 + n / 4096 % 64) = true := by
      simp only [isContinuation, Bool.and_eq_true, decide_eq_true_eq]; omega
    have c2 : isContinuation (0x80 + n / 64 % 64) = true := by
      simp only [isContinuation, Bool.and_eq_true, decide_eq_true_eq]; omega
    have c3 : isContinuation (0x80 + n % 64) = true := by
      simp only [isContinuation, Bool.and_eq_true, decide_eq_true_eq]; omega
    have s1 : scalar 0x10000 n = some c := by
      rw [scalar, if_pos (by omega), hc]
    show utf8DecodeFrom 0 0 0
      ((0xF0 + n / 262144) :: (0x80 + n / 4096 % 64) :: (0x80 + n / 64 % 64)
        :: (0x80 + n % 64) :: rest) = _
    rw [utf8DecodeFrom.eq_3, if_neg a1, if_neg a2, if_neg a3, if_neg a4, if_pos a5,
      utf8DecodeFrom.eq_4, if_pos c1, if_neg (by decide), utf8DecodeFrom.eq_4, if_pos c2,
      if_neg (by decide), utf8DecodeFrom.eq_4, if_pos c3, if_pos rfl, e, s1]
    cases utf8DecodeFrom 0 0 0 rest <;> rfl

theorem utf8Decode_encode (cs : List Char) :
    utf8Decode ((cs.map fun c => utf8Bytes c.toNat).flatten) = some cs := by
  unfold utf8Decode
  induction cs with
  | nil => rfl
  | cons c cs ih => rw [List.map_cons, List.flatten_cons, utf8DecodeFrom_utf8Bytes, ih]; rfl

theorem percentDecode_encodeURIComponent (s : String) :
    percentDecode (encodeURIComponent s) = some s := by
  simp [percentDecode, encodeURIComponent, unescapeOctets_encode, utf8Decode_encode]

theorem encodeChar_no_plus (c : Char) : '+' ∉ encodeChar c := by
  unfold encodeChar
  split
  · rename_i hun
    intro hmem
    rw [List.mem_singleton] at hmem
    subst hmem
    revert hun; decide
  · intro hmem
    rw [List.mem_flatten] at hmem
    obtain ⟨l, hl, hmem⟩ := hmem
    rw [List.mem_map] at hl
    obtain ⟨b, _, rfl⟩ := hl
    simp only [percentOctet, List.mem_cons, List.mem_singleton, List.not_mem_nil, or_false] at hmem
    rcases hmem with h | h | h
    · revert h; decide
    · exact hexDigit_ne_plus _ h.symm
    · exact hexDigit_ne_plus _ h.symm

theorem encodeURIComponent_no_plus (s : String) : '+' ∉ (encodeURIComponent s).data := by
  intro hmem
  simp only [encodeURIComponent, List.mem_flatten, List.mem_map] at hmem
  obtain ⟨l, ⟨c, _, rfl⟩, hmem⟩ := hmem
  exact encodeChar_no_plus c hmem

theorem split_query (terms : List String) (h : terms ≠ []) :
    split (query terms) '+' = terms.map encodeURIComponent := by
  unfold split query join
  show List.map String.mk (List.splitOn '+' (List.intercalate ['+'] _)) = _
  rw [List.splitOn_intercalate]
  · simp [List.map_map, Function.comp_def]
  · intro l hl
    rw [List.mem_map] at hl
    obtain ⟨s, hs, rfl⟩ := hl
    rw [List.mem_map] at hs
    obtain ⟨t, _, rfl⟩ := hs
    exact encodeURIComponent_no_plus t
  · simpa using h

/-- C8: for every non-empty sequence of terms, the URI of `launchSearch` is
`https://www.google.com/search?q=` followed by a query string, and splitting that
query string on `+` and percent-decoding each piece gives back the terms, in
their order. -/
theorem launchSearch_roundtrip (terms : List String) (h : terms ≠ []) :
    launchSearch terms = "https://www.google.com/search?q=" ++ query terms ∧
    (split (query terms) '+').map percentDecode = terms.map some := by
  refine ⟨rfl, ?_⟩
  rw [split_query terms h, List.map_map]
  apply List.map_congr_left
  intro s _
  exact percentDecode_encodeURIComponent s

/-- C8, at a concrete input: terms with a blank, a `+`, an ampersand and
characters of two, three and four UTF-8 octets. -/
theorem launchSearch_roundtrip_witness :
    launchSearch ["cats & dogs", "é+1", "日本", "😀"]
      = "https://www.google.com/search?q=" ++ query ["cats & dogs", "é+1", "日本", "😀"] ∧
    (split (query ["cats & dogs", "é+1", "日本", "😀"]) '+').map percentDecode
      = ["cats & dogs", "é+1", "日本", "😀"].map some :=
  launchSearch_roundtrip ["cats & dogs", "é+1", "日本", "😀"] (by decide)

end GoogleSearch
